import Mathlib

/-!
Verification of the request-telemetry and rolling-statistics subsystem of the
SoftTouchAPI repository, as a shallow embedding of the Python sources
(src/app.py, src/shared/database.py, src/admin/admin.py, src/error_handler.py)
into Lean. Machine floats are modelled as rationals, instants as seconds since
the epoch (UTC), and database tables as lists of rows.
-/

namespace SoftTouch

/-- Instants: seconds since the Unix epoch, UTC. -/
abbrev Time := Nat

/-- UTC calendar day of an instant (day index since the epoch). -/
def utcDay (t : Time) : Nat := t / 86400

/-- Row of the request_log table, src/shared/database.py lines 57 to 64. -/
structure RequestLog where
  api_name : String
  client_ip : String
  response_time : ℚ
  status_code : Int
  timestamp : Time
deriving DecidableEq, Repr

/-- Row of the api_stats table, src/shared/database.py lines 38 to 48.
The last_updated column is nullable, hence Option. -/
structure ApiStat where
  name : String
  daily_requests : Nat
  weekly_requests : Nat
  monthly_requests : Nat
  average_response_time : ℚ
  success_rate : ℚ
  popularity : ℚ
  last_updated : Option Time
deriving DecidableEq, Repr

/-- Row of the statistics table (the GlobalSummary singleton),
src/shared/database.py lines 50 to 55. -/
structure Statistic where
  total_requests : Nat
  unique_users : Nat
  timestamp : Option Time
deriving DecidableEq, Repr

/-- Row of the api_endpoints registry, src/shared/database.py lines 23 to 36,
restricted to the columns the statistics read path consults. -/
structure ApiEndpoint where
  name : String
  enabled : Bool
  is_visible_in_stats : Bool
deriving DecidableEq, Repr

/-- The persistent store: the three telemetry tables plus the endpoint
registry. -/
structure DBState where
  request_log : List RequestLog
  api_stats : List ApiStat
  statistics : List Statistic
  api_endpoints : List ApiEndpoint
deriving DecidableEq, Repr

/-- A database with all tables empty (fresh deployment). -/
def emptyDB : DBState := ⟨[], [], [], []⟩

/-- One entry of the hardcoded statistics object of src/app.py
lines 244 to 263. -/
structure MockApiEntry where
  name : String
  dailyRequests : Nat
  weeklyRequests : Nat
  monthlyRequests : Nat
  averageResponseTime : ℚ
  successRate : ℚ
  popularity : ℚ
deriving DecidableEq, Repr

/-- The module-level statistics dictionary of src/app.py lines 240 to 264:
a constant built once at import time. -/
structure MockStatistics where
  totalRequests : Nat
  uniqueUsers : Nat
  timestamp : String
  apis : List MockApiEntry
deriving DecidableEq, Repr

/-- The literal content of the statistics dictionary in src/app.py
lines 240 to 264 (99.9 is the rational 999/10). -/
def statisticsMock : MockStatistics :=
  { totalRequests := 100
    uniqueUsers := 50
    timestamp := "2023-03-01T00:00:00"
    apis :=
      [ { name := "API 1", dailyRequests := 20, weeklyRequests := 100,
          monthlyRequests := 500, averageResponseTime := 100,
          successRate := 999/10, popularity := 999/10 },
        { name := "API 2", dailyRequests := 30, weeklyRequests := 150,
          monthlyRequests := 750, averageResponseTime := 150,
          successRate := 999/10, popularity := 999/10 } ] }

/-- Serialized ApiStat row as produced by ApiStatSchema with by_alias
(src/shared/schema.py lines 24 to 31). -/
structure ApiStatJson where
  name : String
  dailyRequests : Nat
  weeklyRequests : Nat
  monthlyRequests : Nat
  averageResponseTime : ℚ
  successRate : ℚ
  popularity : ℚ
deriving DecidableEq, Repr

/-- Serialization of one ApiStat row, src/admin/admin.py lines 585 to 595. -/
def toApiStatJson (a : ApiStat) : ApiStatJson :=
  { name := a.name
    dailyRequests := a.daily_requests
    weeklyRequests := a.weekly_requests
    monthlyRequests := a.monthly_requests
    averageResponseTime := a.average_response_time
    successRate := a.success_rate
    popularity := a.popularity }

/-- Bodies of the HTTP responses the modelled routes can produce. -/
inductive Body
  | mock (m : MockStatistics)
  | adminStats (totalRequests uniqueUsers : Nat) (timestamp : Time)
      (apis : List ApiStatJson)
  | endpointsList
  | errorMsg (msg : String)
  | glue
deriving DecidableEq, Repr

/-- An HTTP response: status code and body. -/
structure HttpResponse where
  status : Nat
  body : Body
deriving DecidableEq, Repr

/-- Outcome of the admin statistics read body (src/admin/admin.py lines
574 to 603): either the JSON payload or the name of the Python exception
that escaped. Line 599 reads datetime.utcnow() on the datetime module,
which raises AttributeError whenever the summary row has a null timestamp. -/
abbrev StatsResult := Except String (Nat × Nat × Time × List ApiStatJson)

/-- Embedding of get_statistics, src/admin/admin.py lines 569 to 603.
Steps, in source order: query the first Statistic row; query the names of
registry endpoints flagged visible; query the ApiStat rows whose name is
among those; if no Statistic row existed, insert and commit a zeroed one
with a null timestamp; serialize. The timestamp expression on line 599
is stats.timestamp.isoformat() when set, else datetime.utcnow().isoformat(),
and the latter raises AttributeError because datetime names the module.
Returns the outcome together with the database state after the call. -/
def get_statistics (s : DBState) : StatsResult × DBState :=
  let stats? := s.statistics.head?
  let visible_names :=
    (s.api_endpoints.filter (fun e => e.is_visible_in_stats)).map
      (fun e => e.name)
  let apis := s.api_stats.filter (fun a => visible_names.contains a.name)
  let fresh : Statistic :=
    { total_requests := 0, unique_users := 0, timestamp := none }
  let stats := stats?.getD fresh
  let s2 : DBState :=
    match stats? with
    | some _ => s
    | none => { s with statistics := s.statistics ++ [fresh] }
  match stats.timestamp with
  | some t =>
      (Except.ok (stats.total_requests, stats.unique_users, t,
        apis.map toApiStatJson), s2)
  | none => (Except.error "AttributeError", s2)

/-- Embedding of the catch-all Flask handler handle_exception,
src/error_handler.py lines 24 to 52: every uncaught exception becomes a
500 Internal Server Error response. -/
def handle_exception (_e : String) : HttpResponse :=
  { status := 500, body := Body.errorMsg "Internal Server Error" }

/-- The admin GET /stats route as served by Flask: when the store is
unavailable the session query raises an OperationalError, which
get_statistics does not catch (its only cleanup is session.close), so the
exception reaches the app-wide handle_exception handler and the caller
receives 500; the same happens for the AttributeError of line 599. On
success, jsonify returns the payload with status 200. -/
def serveAdminStats (storeAvailable : Bool) (s : DBState) :
    HttpResponse × DBState :=
  if storeAvailable then
    match get_statistics s with
    | (Except.ok (tr, uu, t, apis), s2) =>
        ({ status := 200, body := Body.adminStats tr uu t apis }, s2)
    | (Except.error e, s2) => (handle_exception e, s2)
  else
    (handle_exception "OperationalError", s)

/-- The routes of the application relevant to telemetry: the four handlers
of src/app.py (lines 278 to 311), the admin statistics read, and the
library glue routes registered on lines 270 to 274. The glue modules under
src/api/routes never import shared.database (verified over the sources),
so their handlers touch no table. -/
inductive Route
  | home
  | statisticsRoute
  | endpointsRoute
  | contact
  | adminStats
  | textAnalyze
  | textSentiment
  | textTranslate
  | textDetect
  | textSummarize
  | qrGenerate
  | transcribe
deriving DecidableEq, Repr

/-- Dispatch of one completed request through the application. No
before_request or after_request hook is registered anywhere in src/app.py,
so no handler constructs a RequestLog row or touches api_stats: the only
route that reaches the store at all is the admin statistics read. -/
def handleRequest (r : Route) (storeAvailable : Bool) (s : DBState) :
    HttpResponse × DBState :=
  match r with
  | Route.statisticsRoute => ({ status := 200, body := Body.mock statisticsMock }, s)
  | Route.home => ({ status := 200, body := Body.endpointsList }, s)
  | Route.endpointsRoute => ({ status := 200, body := Body.endpointsList }, s)
  | Route.contact => ({ status := 200, body := Body.glue }, s)
  | Route.adminStats => serveAdminStats storeAvailable s
  | _ => ({ status := 200, body := Body.glue }, s)

/-- Modelled from the spec: the RequestRecord tuple of section 3, produced
once per completed request by the Telemetry Gateway. The gateway and the
aggregators are absent from src/ (only the table declarations in
src/shared/database.py exist), so the records and the update algorithm
below follow the words of spec sections 3 to 5. -/
structure RequestRecord where
  route : String
  caller_id : String
  duration_ms : ℚ
  status_code : Int
  timestamp : Time
deriving DecidableEq, Repr

/-- Modelled from the spec: a request counts as a success when its status
code is below 400 (spec section 4.2). -/
def isSuccess (status_code : Int) : Bool := status_code < 400

/-- Modelled from the spec: reset_daily of section 4.2 step 2, true when
the UTC calendar date of now differs from that of last_updated. -/
def resetDaily (now last : Time) : Bool := utcDay now ≠ utcDay last

/-- Modelled from the spec: reset_weekly of section 4.2 step 2, true when
now minus last_updated exceeds 7 days. -/
def resetWeekly (now last : Time) : Bool :=
  (7 * 86400 : Int) < (now : Int) - (last : Int)

/-- Modelled from the spec: reset_monthly of section 4.2 step 2, true when
now minus last_updated exceeds 30 days. -/
def resetMonthly (now last : Time) : Bool :=
  (30 * 86400 : Int) < (now : Int) - (last : Int)

/-- Modelled from the spec: section 4.2 step 1, the row created for a route
with no EndpointStat yet. -/
def initStat (r : RequestRecord) : ApiStat :=
  { name := r.route
    daily_requests := 1
    weekly_requests := 1
    monthly_requests := 1
    average_response_time := r.duration_ms
    success_rate := if isSuccess r.status_code then 100 else 0
    popularity := 1/10
    last_updated := some r.timestamp }

/-- Modelled from the spec: section 4.2 steps 2 to 6, the total update of an
existing EndpointStat row by one RequestRecord. The aggregator always wrote
last_updated, so a null last_updated cannot arise on this path; the model
defaults it to the record timestamp, which triggers no reset. -/
def applyUpdate (st : ApiStat) (r : RequestRecord) : ApiStat :=
  let last := st.last_updated.getD r.timestamp
  let rd := resetDaily r.timestamp last
  let daily2 := if rd then 1 else st.daily_requests + 1
  let avg2 :=
    if rd then r.duration_ms
    else (st.average_response_time * (st.daily_requests : ℚ) + r.duration_ms) /
      ((st.daily_requests : ℚ) + 1)
  let sr2 :=
    if rd then (if isSuccess r.status_code then (100 : ℚ) else 0)
    else 100 * ((st.success_rate / 100) * (st.daily_requests : ℚ) +
      (if isSuccess r.status_code then 1 else 0)) / ((st.daily_requests : ℚ) + 1)
  let weekly2 := if resetWeekly r.timestamp last then 1 else st.weekly_requests + 1
  let monthly2 := if resetMonthly r.timestamp last then 1 else st.monthly_requests + 1
  { name := st.name
    daily_requests := daily2
    weekly_requests := weekly2
    monthly_requests := monthly2
    average_response_time := avg2
    success_rate := sr2
    popularity := min 100 ((monthly2 : ℚ) / 10)
    last_updated := some r.timestamp }

/-- Modelled from the spec: one Endpoint Stat Aggregator step over the
api_stats table (section 4.2): create the row when absent, otherwise apply
the total update to the row of that route. -/
def recordStat (stats : List ApiStat) (r : RequestRecord) : List ApiStat :=
  match stats.find? (fun st => st.name == r.route) with
  | none => stats ++ [initStat r]
  | some _ =>
      stats.map (fun st => if st.name == r.route then applyUpdate st r else st)

/-- Folding one row through a sequence of updates. -/
def applyAll (st : ApiStat) (rs : List RequestRecord) : ApiStat :=
  rs.foldl applyUpdate st

/-- Folding the whole api_stats table through a sequence of records. Under
the per-route atomic read-modify-write the spec mandates in section 5,
every interleaving of concurrent requests serializes into such a fold. -/
def recordAll (stats : List ApiStat) (rs : List RequestRecord) : List ApiStat :=
  rs.foldl recordStat stats

/-- A concrete database whose summary row exists with a set timestamp. -/
def dbWithSummary : DBState :=
  { request_log := []
    api_stats := []
    statistics := [{ total_requests := 7, unique_users := 3, timestamp := some 1000 }]
    api_endpoints := [] }

lemma get_statistics_frame (s : DBState) :
    (get_statistics s).2.request_log = s.request_log ∧
    (get_statistics s).2.api_stats = s.api_stats ∧
    (get_statistics s).2.api_endpoints = s.api_endpoints := by
  rcases s with ⟨rl, as, stats, eps⟩
  rcases stats with _ | ⟨st, rest⟩
  · simp [get_statistics]
  · simp [get_statistics]
    split <;> simp

lemma get_statistics_of_nonempty (s : DBState) (h : s.statistics ≠ []) :
    (get_statistics s).2 = s := by
  rcases s with ⟨rl, as, stats, eps⟩
  rcases stats with _ | ⟨st, rest⟩
  · simp at h
  · simp [get_statistics]
    split <;> rfl

lemma serveAdminStats_state (s : DBState) :
    (serveAdminStats true s).2 = (get_statistics s).2 := by
  unfold serveAdminStats
  rcases h : get_statistics s with ⟨res, s2⟩
  rcases res with e | ⟨tr, uu, t, apis⟩ <;> simp [h]

/-- C1 counterexample: the claim says that after one completed request the
persistent request log holds one appended record; handling a request on a
fresh database leaves the log with zero records, because src/app.py
registers no telemetry hook at all. -/
theorem request_log_not_appended :
    (handleRequest Route.statisticsRoute true emptyDB).2.request_log.length = 0 ∧
    ¬ (handleRequest Route.statisticsRoute true emptyDB).2.request_log.length = 1 := by
  decide

/-- C1 amended: the application installs no telemetry hook, so completing a
request constructs no RequestRecord, appends nothing to the request log and
leaves every EndpointStat row unchanged, for every route, store
availability and starting state; the response is still returned (the
dispatch is total). -/
theorem no_telemetry_recorded (r : Route) (avail : Bool) (s : DBState) :
    (handleRequest r avail s).2.request_log = s.request_log ∧
    (handleRequest r avail s).2.api_stats = s.api_stats := by
  cases r <;> try exact ⟨rfl, rfl⟩
  cases avail
  · exact ⟨rfl, rfl⟩
  · have hframe := get_statistics_frame s
    have hstate := serveAdminStats_state s
    constructor
    · show (serveAdminStats true s).2.request_log = s.request_log
      rw [hstate]; exact hframe.1
    · show (serveAdminStats true s).2.api_stats = s.api_stats
      rw [hstate]; exact hframe.2.1

/-- C2: the public GET /statistics endpoint is a constant function: for
every database state and store availability it returns status 200 with the
fixed module-level object of src/app.py lines 240 to 264 (totalRequests
100, uniqueUsers 50, timestamp 2023-03-01T00:00:00, exactly the two
entries API 1 and API 2) and leaves the state untouched. -/
theorem statistics_endpoint_constant (s : DBState) (avail : Bool) :
    handleRequest Route.statisticsRoute avail s =
      ({ status := 200, body := Body.mock statisticsMock }, s) ∧
    statisticsMock.totalRequests = 100 ∧
    statisticsMock.uniqueUsers = 50 ∧
    statisticsMock.timestamp = "2023-03-01T00:00:00" ∧
    statisticsMock.apis.map (fun a => a.name) = ["API 1", "API 2"] :=
  ⟨rfl, rfl, rfl, rfl, rfl⟩

/-- C3: evaluation at the failing input. On a fresh database the admin
statistics read does not return the snapshot: the summary row is created
with a null timestamp, line 599 of src/admin/admin.py evaluates
datetime.utcnow() on the datetime module, the AttributeError escapes to the
app-wide handler and the caller receives 500, with the zeroed summary row
already committed. -/
theorem admin_stats_fresh_db_crashes :
    (serveAdminStats true emptyDB).1.status = 500 ∧
    (get_statistics emptyDB).1 = Except.error "AttributeError" ∧
    (serveAdminStats true emptyDB).2.statistics =
      [{ total_requests := 0, unique_users := 0, timestamp := none }] :=
  ⟨rfl, rfl, rfl⟩

/-- C4 counterexample: the claim says the snapshot read never mutates
state; on a database with no summary row the read inserts and commits a
zeroed Statistic row, so the state after the read differs from the state
before. -/
theorem admin_stats_read_mutates_fresh_db :
    (serveAdminStats true emptyDB).2 ≠ emptyDB := by
  decide

/-- C4 amended: the snapshot read never mutates the request log or the
EndpointStat rows, and whenever the GlobalSummary singleton already exists
the read leaves the whole database exactly as it was; only on a database
with no summary row does it insert a zeroed Statistic row. -/
theorem admin_stats_read_frame (s : DBState) :
    (serveAdminStats true s).2.request_log = s.request_log ∧
    (serveAdminStats true s).2.api_stats = s.api_stats ∧
    (s.statistics ≠ [] → (serveAdminStats true s).2 = s) := by
  have hframe := get_statistics_frame s
  have hstate := serveAdminStats_state s
  refine ⟨?_, ?_, ?_⟩
  · rw [hstate]; exact hframe.1
  · rw [hstate]; exact hframe.2.1
  · intro h
    rw [hstate]
    exact get_statistics_of_nonempty s h

/-- C4 amended, witnessed at a database whose summary row exists. -/
theorem admin_stats_read_frame_witness :
    dbWithSummary.statistics ≠ [] ∧
    (serveAdminStats true dbWithSummary).2 = dbWithSummary :=
  ⟨by decide, (admin_stats_read_frame dbWithSummary).2.2 (by decide)⟩

/-- C9 counterexample: with the store unavailable, the statistics read
surfaces as 500 Internal Server Error, not as 503 Service Unavailable:
nothing in the read path raises or aborts with 503, so the OperationalError
lands in the catch-all handler of src/error_handler.py lines 24 to 52. -/
theorem stats_read_store_down_not_503 :
    (serveAdminStats false emptyDB).1.status = 500 ∧
    ¬ (serveAdminStats false emptyDB).1.status = 503 := by
  decide

/-- C9 amended: for every database state, a statistics read while the
persistent store is unavailable is surfaced to the caller as a 500
Internal Server Error produced by the app-wide exception handler. -/
theorem stats_read_store_down_returns_500 (s : DBState) :
    (serveAdminStats false s).1 = handle_exception "OperationalError" ∧
    (serveAdminStats false s).1.status = 500 :=
  ⟨rfl, rfl⟩

lemma applyUpdate_name (st : ApiStat) (r : RequestRecord) :
    (applyUpdate st r).name = st.name := rfl

lemma applyUpdate_same_day (st : ApiStat) (last : Time) (r : RequestRecord)
    (hlast : st.last_updated = some last)
    (hday : utcDay r.timestamp = utcDay last) :
    (applyUpdate st r).daily_requests = st.daily_requests + 1 ∧
    (applyUpdate st r).average_response_time =
      (st.average_response_time * (st.daily_requests : ℚ) + r.duration_ms) /
        ((st.daily_requests : ℚ) + 1) ∧
    (applyUpdate st r).last_updated = some r.timestamp := by
  simp [applyUpdate, hlast, resetDaily, hday]

lemma applyAll_same_day (D : Nat) :
    ∀ (rs : List RequestRecord) (st : ApiStat) (last : Time),
      st.last_updated = some last → utcDay last = D →
      (∀ r ∈ rs, utcDay r.timestamp = D) →
      (applyAll st rs).daily_requests = st.daily_requests + rs.length ∧
      (applyAll st rs).average_response_time *
          ((st.daily_requests : ℚ) + (rs.length : ℚ)) =
        st.average_response_time * (st.daily_requests : ℚ) +
          (rs.map (fun r => r.duration_ms)).sum ∧
      ∃ t, (applyAll st rs).last_updated = some t ∧ utcDay t = D := by
  intro rs
  induction rs with
  | nil =>
      intro st last hlast hD _
      exact ⟨by simp [applyAll], by simp [applyAll], last, by simpa [applyAll] using hlast, hD⟩
  | cons r rest ih =>
      intro st last hlast hD hmem
      have hr : utcDay r.timestamp = D := hmem r (by simp)
      have hday : utcDay r.timestamp = utcDay last := by rw [hr, hD]
      obtain ⟨h1, h2, h3⟩ := applyUpdate_same_day st last r hlast hday
      have hrest : ∀ x ∈ rest, utcDay x.timestamp = D := fun x hx => hmem x (by simp [hx])
      obtain ⟨ih1, ih2, ih3⟩ := ih (applyUpdate st r) r.timestamp h3 hr hrest
      have hfold : applyAll st (r :: rest) = applyAll (applyUpdate st r) rest := rfl
      have hd1 : ((st.daily_requests : ℚ) + 1) ≠ 0 := by positivity
      refine ⟨?_, ?_, ?_⟩
      · rw [hfold, ih1, h1]
        simp [List.length_cons]
        omega
      · rw [h1, h2] at ih2
        have hmul : (st.average_response_time * (st.daily_requests : ℚ) +
            r.duration_ms) / ((st.daily_requests : ℚ) + 1) *
              ((st.daily_requests + 1 : ℕ) : ℚ) =
            st.average_response_time * (st.daily_requests : ℚ) + r.duration_ms := by
          push_cast
          exact div_mul_cancel₀ _ hd1
        rw [hfold]
        calc (applyAll (applyUpdate st r) rest).average_response_time *
              ((st.daily_requests : ℚ) + ((r :: rest).length : ℚ))
            = (applyAll (applyUpdate st r) rest).average_response_time *
              (((st.daily_requests + 1 : ℕ) : ℚ) + (rest.length : ℚ)) := by
              simp only [List.length_cons]; push_cast; ring
          _ = (st.average_response_time * (st.daily_requests : ℚ) +
                r.duration_ms) / ((st.daily_requests : ℚ) + 1) *
                ((st.daily_requests + 1 : ℕ) : ℚ) +
                (rest.map (fun x => x.duration_ms)).sum := ih2
          _ = st.average_response_time * (st.daily_requests : ℚ) +
                ((r :: rest).map (fun x => x.duration_ms)).sum := by
              rw [hmul]
              simp only [List.map_cons, List.sum_cons]
              ring
      · exact ih3

lemma applyAll_name (rs : List RequestRecord) :
    ∀ st : ApiStat, (applyAll st rs).name = st.name := by
  induction rs with
  | nil => intro st; rfl
  | cons r rest ih => intro st; exact (ih (applyUpdate st r)).trans rfl

lemma recordAll_single (R : String) :
    ∀ (rs : List RequestRecord) (st : ApiStat), st.name = R →
      (∀ r ∈ rs, r.route = R) →
      recordAll [st] rs = [applyAll st rs] := by
  intro rs
  induction rs with
  | nil => intro st _ _; rfl
  | cons r rest ih =>
      intro st hname hmem
      have hr : r.route = R := hmem r (by simp)
      have hbeq : (st.name == r.route) = true := by
        rw [hname, hr]; simp
      have hfind : ([st]).find? (fun st2 => st2.name == r.route) = some st := by
        simp [List.find?, hbeq]
      have hstep : recordStat [st] r = [applyUpdate st r] := by
        unfold recordStat
        rw [hfind]
        simp only [List.map_cons, List.map_nil]
        rw [if_pos hbeq]
      show recordAll (recordStat [st] r) rest = [applyAll (applyUpdate st r) rest]
      rw [hstep]
      exact ih (applyUpdate st r) ((applyUpdate_name st r).trans hname)
        (fun x hx => hmem x (by simp [hx]))

/-- Sample first request of a route with no row yet. -/
def rFirst : RequestRecord :=
  { route := "/api/text/analyze", caller_id := "10.0.0.1", duration_ms := 100,
    status_code := 200, timestamp := 500 }

/-- The row above after its creating request, used as a concrete existing
row by several witnesses. -/
def stEx : ApiStat :=
  initStat
    { route := "r", caller_id := "c", duration_ms := 100, status_code := 200,
      timestamp := 0 }

/-- A request one UTC day later than stEx. -/
def rNextDay : RequestRecord :=
  { route := "r", caller_id := "c", duration_ms := 50, status_code := 500,
    timestamp := 86410 }

/-- A request 31 days later than stEx, crossing the monthly threshold. -/
def rNextMonth : RequestRecord :=
  { route := "r", caller_id := "c", duration_ms := 50, status_code := 200,
    timestamp := 31 * 86400 }

/-- Scenario of spec section 8: first of three same-day requests with
durations 100, 200, 300. -/
def r0Ex : RequestRecord :=
  { route := "/api/text/analyze", caller_id := "c", duration_ms := 100,
    status_code := 200, timestamp := 0 }

/-- Scenario of spec section 8: the second and third same-day requests. -/
def rsEx : List RequestRecord :=
  [ { route := "/api/text/analyze", caller_id := "c", duration_ms := 200,
      status_code := 200, timestamp := 10 },
    { route := "/api/text/analyze", caller_id := "c", duration_ms := 300,
      status_code := 200, timestamp := 20 } ]

/-- Three same-day requests to one route, for the lost-update property. -/
def rsSameDay : List RequestRecord :=
  [ { route := "r", caller_id := "a", duration_ms := 10, status_code := 200,
      timestamp := 5 },
    { route := "r", caller_id := "b", duration_ms := 20, status_code := 404,
      timestamp := 3 },
    { route := "r", caller_id := "c", duration_ms := 30, status_code := 200,
      timestamp := 9 } ]

/-- C5: for a route with no EndpointStat row, one aggregator step appends
the freshly initialized row, with daily, weekly and monthly counters 1,
average equal to the duration of the record, success rate 100 when the
status code is below 400 and 0 otherwise, popularity 0.1 and last_updated
set to the record instant; nothing else in the table changes and the
update for that request ends there. -/
theorem first_request_initializes_row (stats : List ApiStat)
    (r : RequestRecord)
    (habs : stats.find? (fun st => st.name == r.route) = none) :
    recordStat stats r = stats ++ [initStat r] ∧
    (initStat r).name = r.route ∧
    (initStat r).daily_requests = 1 ∧
    (initStat r).weekly_requests = 1 ∧
    (initStat r).monthly_requests = 1 ∧
    (initStat r).average_response_time = r.duration_ms ∧
    (initStat r).success_rate = (if r.status_code < 400 then (100 : ℚ) else 0) ∧
    (initStat r).popularity = 1/10 ∧
    (initStat r).last_updated = some r.timestamp := by
  refine ⟨?_, rfl, rfl, rfl, rfl, rfl, ?_, rfl, rfl⟩
  · unfold recordStat
    rw [habs]
  · simp [initStat, isSuccess]

/-- C5, witnessed on the empty table with a concrete request. -/
theorem first_request_initializes_row_witness :
    ([] : List ApiStat).find? (fun st => st.name == rFirst.route) = none ∧
    recordStat [] rFirst = [] ++ [initStat rFirst] :=
  ⟨rfl, (first_request_initializes_row [] rFirst rfl).1⟩

/-- C6: when the update instant falls on a different UTC calendar date
than last_updated, the daily counter restarts at 1 and the average and
success rate restart from this single request, while the weekly and
monthly counters are each incremented unless their own threshold (7 or 30
days) is exceeded, in which case that counter alone restarts at 1; the
three decisions are independent. -/
theorem day_boundary_reset (st : ApiStat) (last : Time) (r : RequestRecord)
    (hlast : st.last_updated = some last)
    (hday : utcDay r.timestamp ≠ utcDay last) :
    (applyUpdate st r).daily_requests = 1 ∧
    (applyUpdate st r).average_response_time = r.duration_ms ∧
    (applyUpdate st r).success_rate =
      (if r.status_code < 400 then (100 : ℚ) else 0) ∧
    (applyUpdate st r).weekly_requests =
      (if (7 * 86400 : Int) < (r.timestamp : Int) - (last : Int) then 1
        else st.weekly_requests + 1) ∧
    (applyUpdate st r).monthly_requests =
      (if (30 * 86400 : Int) < (r.timestamp : Int) - (last : Int) then 1
        else st.monthly_requests + 1) := by
  simp [applyUpdate, hlast, resetDaily, resetWeekly, resetMonthly, hday, isSuccess]

/-- C6, witnessed one day after a single recorded request: the daily
counter and the two running statistics restart while the weekly counter
only increments. -/
theorem day_boundary_reset_witness :
    stEx.last_updated = some 0 ∧ utcDay rNextDay.timestamp ≠ utcDay 0 ∧
    (applyUpdate stEx rNextDay).daily_requests = 1 ∧
    (applyUpdate stEx rNextDay).average_response_time = rNextDay.duration_ms :=
  ⟨by decide, by decide,
    (day_boundary_reset stEx 0 rNextDay (by decide) (by decide)).1,
    (day_boundary_reset stEx 0 rNextDay (by decide) (by decide)).2.1⟩

/-- C7: over a sequence of requests processed within a single daily window
(every instant on the same UTC day as the first), the daily counter equals
the number of requests and the running average equals the arithmetic mean
of all durations, via the incremental-mean rule of the update. -/
theorem daily_window_average_is_mean (r0 : RequestRecord)
    (rs : List RequestRecord)
    (hday : ∀ r ∈ rs, utcDay r.timestamp = utcDay r0.timestamp) :
    (applyAll (initStat r0) rs).daily_requests = 1 + rs.length ∧
    (applyAll (initStat r0) rs).average_response_time =
      (r0.duration_ms + (rs.map (fun r => r.duration_ms)).sum) /
        (1 + (rs.length : ℚ)) := by
  obtain ⟨h1, h2, _⟩ :=
    applyAll_same_day (utcDay r0.timestamp) rs (initStat r0) r0.timestamp rfl rfl hday
  refine ⟨by simpa [initStat] using h1, ?_⟩
  have hne : (1 + (rs.length : ℚ)) ≠ 0 := by positivity
  have e1 : (initStat r0).daily_requests = 1 := rfl
  have e2 : (initStat r0).average_response_time = r0.duration_ms := rfl
  rw [e1, e2] at h2
  push_cast at h2
  rw [eq_div_iff hne]
  linarith

/-- C7, witnessed on the scenario of spec section 8: durations 100, 200,
300 within one day give daily 3 and average 200. -/
theorem daily_window_average_is_mean_witness :
    (∀ r ∈ rsEx, utcDay r.timestamp = utcDay r0Ex.timestamp) ∧
    (applyAll (initStat r0Ex) rsEx).average_response_time =
      (r0Ex.duration_ms + (rsEx.map (fun r => r.duration_ms)).sum) /
        (1 + (rsEx.length : ℚ)) ∧
    (applyAll (initStat r0Ex) rsEx).average_response_time = 200 :=
  ⟨by decide, (daily_window_average_is_mean r0Ex rsEx (by decide)).2,
    by norm_num [applyAll, applyUpdate, initStat, resetDaily, resetWeekly,
      resetMonthly, utcDay, isSuccess, rsEx, r0Ex, List.foldl]⟩

/-- C8: after every aggregator step, on both the creation path and the
update path, popularity equals min 100 of monthly_requests over 10, hence
lies in the interval from 0 to 100, and a monthly counter of 1 (as right
after a monthly reset) forces popularity 0.1. -/
theorem popularity_invariant (st : ApiStat) (r : RequestRecord) :
    ((applyUpdate st r).popularity =
        min 100 (((applyUpdate st r).monthly_requests : ℚ) / 10) ∧
      0 ≤ (applyUpdate st r).popularity ∧
      (applyUpdate st r).popularity ≤ 100 ∧
      ((applyUpdate st r).monthly_requests = 1 →
        (applyUpdate st r).popularity = 1/10)) ∧
    ((initStat r).popularity =
        min 100 (((initStat r).monthly_requests : ℚ) / 10) ∧
      (initStat r).popularity = 1/10) := by
  have hpop : (applyUpdate st r).popularity =
      min 100 (((applyUpdate st r).monthly_requests : ℚ) / 10) := rfl
  refine ⟨⟨hpop, ?_, ?_, ?_⟩, ?_, rfl⟩
  · rw [hpop]
    exact le_min (by norm_num) (by positivity)
  · rw [hpop]
    exact min_le_left _ _
  · intro h
    rw [hpop, h]
    norm_num
  · simp [initStat]
    norm_num

/-- C8, witnessed right after a monthly reset: 31 days after the previous
update the monthly counter restarts at 1 and popularity is 0.1. -/
theorem popularity_invariant_witness :
    (applyUpdate stEx rNextMonth).monthly_requests = 1 ∧
    (applyUpdate stEx rNextMonth).popularity = 1/10 :=
  ⟨by decide, (popularity_invariant stEx rNextMonth).1.2.2.2 (by decide)⟩

/-- C10: under the per-route atomic read-modify-write the spec mandates,
every interleaving of N concurrent same-route requests serializes into
some sequence of N atomic aggregator steps; for every such sequence whose
instants all fall on one UTC day (no window boundary crossed), the final
table holds exactly one row for the route and its daily counter equals N:
no update is lost. -/
theorem concurrent_same_window_counts (R : String) (D : Nat)
    (rs : List RequestRecord) (hne : rs ≠ [])
    (hmem : ∀ r ∈ rs, r.route = R ∧ utcDay r.timestamp = D) :
    ∃ st, recordAll [] rs = [st] ∧ st.name = R ∧
      st.daily_requests = rs.length := by
  rcases rs with _ | ⟨r0, rest⟩
  · exact absurd rfl hne
  obtain ⟨hr0, hd0⟩ := hmem r0 (by simp)
  have hroutes : ∀ r ∈ rest, r.route = R := fun r hr => (hmem r (by simp [hr])).1
  have hsingle : recordAll [initStat r0] rest = [applyAll (initStat r0) rest] :=
    recordAll_single R rest (initStat r0) (by simp [initStat, hr0]) hroutes
  refine ⟨applyAll (initStat r0) rest, ?_, ?_, ?_⟩
  · show recordAll (recordStat [] r0) rest = _
    have hstep : recordStat [] r0 = [initStat r0] := rfl
    rw [hstep, hsingle]
  · rw [applyAll_name]
    simp [initStat, hr0]
  · obtain ⟨h1, _, _⟩ := applyAll_same_day D rest (initStat r0) r0.timestamp rfl hd0
      (fun r hr => (hmem r (by simp [hr])).2)
    rw [h1]
    simp [initStat]
    omega

/-- C10, witnessed on three same-day requests to one route, arriving out
of timestamp order: the final daily counter is 3. -/
theorem concurrent_same_window_counts_witness :
    rsSameDay ≠ [] ∧
    (∀ r ∈ rsSameDay, r.route = "r" ∧ utcDay r.timestamp = 0) ∧
    (∃ st, recordAll [] rsSameDay = [st] ∧ st.name = "r" ∧
      st.daily_requests = rsSameDay.length) :=
  ⟨by decide, by decide,
    concurrent_same_window_counts "r" 0 rsSameDay (by decide) (by decide)⟩

end SoftTouch
